import Mathlib

/-!
Shallow embedding of `rizerphe-student/room-crawler-game`.

The repository holds two variants of the game:
* `src/6/game.py` — the final variant (`Item`, `Character` hierarchy,
  `EncounterResult`, `Section`, `Game`);
* `src/5/game.py` — the earlier variant (`Room`, `Enemy`, `Item`).

Python objects are modelled as Lean values; mutation is explicit state
passing; a Python exception is modelled as `Option · = none`.
-/

/-- `Direction` enum of both variants: NORTH=0, EAST=1, SOUTH=2, WEST=3. -/
inductive Direction where
  | north
  | east
  | south
  | west
deriving DecidableEq

/-- `Direction.value`: the numeric value of an enum member. -/
def Direction.value : Direction → Nat
  | .north => 0
  | .east => 1
  | .south => 2
  | .west => 3

/-- The Python call `Direction(n)`: `some d` when `n` is the value of a
member `d`, `none` when `Direction(n)` raises `ValueError`. -/
def Direction.ofValue? : Nat → Option Direction
  | 0 => some .north
  | 1 => some .east
  | 2 => some .south
  | 3 => some .west
  | _ => none

/-- `Item` dataclass of `src/6/game.py` (fields `name`, `description`,
`worry_description`).  The extra flag `isGoldenApple` records the runtime
class of the object: `true` exactly for instances of the `GoldenApple`
subclass, which `Zombie.encounter` tests with `isinstance`. -/
structure Item where
  name : String
  description : String
  worryDescription : String
  isGoldenApple : Bool := false
deriving DecidableEq

/-- The default `GoldenApple()` instance. -/
def goldenApple : Item :=
  { name := "Golden Apple"
    description := "A golden apple"
    worryDescription := "what if you eat it?"
    isGoldenApple := true }

/-- `Item.__eq__`: `isinstance(other, Item) and self.name == other.name`.
Both operands are `Item`s here, so only the names are compared (the
runtime-class flag is deliberately ignored, as in the source). -/
def itemEq (a b : Item) : Bool :=
  decide (a.name = b.name)

/-- Data fields of the `Transaction` dataclass: `item`, `exchanged_for`. -/
structure Transaction where
  item : Item
  exchangedFor : Item
deriving DecidableEq

/-- Generated `Transaction.__eq__`: fieldwise comparison with
`Item.__eq__`. -/
def transactionEq (a b : Transaction) : Bool :=
  itemEq a.item b.item && itemEq a.exchangedFor b.exchangedFor

/-- The runtime class of a `Character` object — the closed set of
character classes defined in `src/6/game.py`. -/
inductive CharacterClass where
  | enemy
  | zombie
  | dragon
  | friend
  | student
  | teacher
deriving DecidableEq

/-- A `Character` object of `src/6/game.py`, flattened over the class
hierarchy: `cls` is the runtime class, `name` and `weaknesses` come from
`Character`, `alive` from `Enemy`/`Friend`, `sells` from `Friend`
(enemies always carry `sells = []`). -/
structure Character where
  cls : CharacterClass
  name : String
  weaknesses : List Item
  alive : Bool
  sells : List Transaction
deriving DecidableEq

/-- Elementwise Python list equality under an element comparison. -/
def listEqBy (f : α → β → Bool) : List α → List β → Bool
  | [], [] => true
  | a :: as, b :: bs => f a b && listEqBy f as bs
  | _, _ => false

/-- Generated dataclass `__eq__` for characters: equal runtime class and
fieldwise equality (weaknesses via `Item.__eq__`, sells via
`Transaction.__eq__`). -/
def characterEq (a b : Character) : Bool :=
  decide (a.cls = b.cls) && decide (a.name = b.name)
    && listEqBy itemEq a.weaknesses b.weaknesses
    && decide (a.alive = b.alive)
    && listEqBy transactionEq a.sells b.sells

/-- Python `==` between a `Character` and an `Item`: `Character`'s
dataclass `__eq__` returns `NotImplemented` (class mismatch), the
reflected `Item.__eq__` fails its `isinstance(other, Item)` check, and
the objects are never identical, so the comparison is always `False`. -/
def characterItemEq (_ : Character) (_ : Item) : Bool :=
  false

/-- `__class__.__name__` of a character. -/
def className : CharacterClass → String
  | .enemy => "Enemy"
  | .zombie => "Zombie"
  | .dragon => "Dragon"
  | .friend => "Friend"
  | .student => "Student"
  | .teacher => "Teacher"

/-- The `EncounterResult` hierarchy of `src/6/game.py`:
`EmptyEncounterResult`, `AnnottatedEncounterResult`, `Transaction`,
`CharacterSwap` — the four concrete subclasses the code defines. -/
inductive EncounterResult where
  | empty
  | annotated (s : String)
  | transaction (t : Transaction)
  | characterSwap (oldCharacter newCharacter : Character)
deriving DecidableEq

/-- `EncounterSummary` dataclass: the four delta lists, all empty by
default. -/
structure EncounterSummary where
  inventoryAdditions : List Item := []
  inventoryRemovals : List Item := []
  characterAdditions : List Character := []
  characterRemovals : List Character := []
deriving DecidableEq

/-- The `summary` property of each `EncounterResult` subclass. -/
def EncounterResult.summary : EncounterResult → EncounterSummary
  | .empty => {}
  | .annotated _ => {}
  | .transaction t =>
      { inventoryAdditions := [t.item]
        inventoryRemovals := [t.exchangedFor] }
  | .characterSwap oldCharacter newCharacter =>
      { characterAdditions := [newCharacter]
        characterRemovals := [oldCharacter] }

/-- The `description` property of each `EncounterResult` subclass. -/
def EncounterResult.description : EncounterResult → String
  | .empty => "Nothing happened."
  | .annotated s => s
  | .transaction t =>
      "You traded " ++ t.exchangedFor.name ++ " for " ++ t.item.name ++ "."
  | .characterSwap oldCharacter newCharacter =>
      oldCharacter.name ++ ", a " ++ className oldCharacter.cls
        ++ " transformed into " ++ newCharacter.name ++ ", a "
        ++ className newCharacter.cls ++ "."

/-- `Enemy.get_attacked_with`: `item in self.weaknesses`, with the list
elements on the left of each `==` as CPython evaluates containment. -/
def getAttackedWith (c : Character) (item : Item) : Bool :=
  c.weaknesses.any (fun w => itemEq w item)

/-- `Enemy.encounter`: on a weakness hit set `alive = False` and return
`AnnottatedEncounterResult("You killed {name}")`, else return
`EmptyEncounterResult()`.  The updated character is returned alongside
the result. -/
def enemyEncounter (c : Character) (item : Item) : Character × EncounterResult :=
  if getAttackedWith c item then
    ({ c with alive := false }, .annotated ("You killed " ++ c.name))
  else
    (c, .empty)

/-- The default weaknesses of a `Student` (dataclass field defaults). -/
def studentDefaultWeaknesses : List Item :=
  [ { name := "Exam", description := "An exam",
      worryDescription := "how well I did on my exam" },
    { name := "Homework", description := "Homework",
      worryDescription := "how much homework I have" } ]

/-- The default trade table of a `Student` (dataclass field defaults). -/
def studentDefaultSells : List Transaction :=
  [ { item := { name := "Knife", description := "A knife",
                worryDescription := "how I'm going to kill myself" }
      exchangedFor := { name := "Exam results", description := "Exam results",
                        worryDescription := "how well I did on my exam" } },
    { item := goldenApple
      exchangedFor := { name := "Burger", description := "A burger",
                        worryDescription := "what I'm going to eat" } } ]

/-- The Python call `Student(name)`: a fresh `Student` with the default
field values of the dataclass. -/
def mkStudent (name : String) : Character :=
  { cls := .student
    name := name
    weaknesses := studentDefaultWeaknesses
    alive := true
    sells := studentDefaultSells }

/-- `Zombie.encounter`: a `GoldenApple` yields
`CharacterSwap(self, Student(self.name))` without touching the zombie;
any other item is delegated to `Enemy.encounter`. -/
def zombieEncounter (c : Character) (item : Item) : Character × EncounterResult :=
  if item.isGoldenApple then
    (c, .characterSwap c (mkStudent c.name))
  else
    enemyEncounter c item

/-- The loop body of `Friend.encounter`: return the first `Transaction`
of `sells` whose `exchanged_for == item`, else
`EmptyEncounterResult()`. -/
def friendEncounterLoop : List Transaction → Item → EncounterResult
  | [], _ => .empty
  | t :: rest, item =>
      if itemEq t.exchangedFor item then .transaction t
      else friendEncounterLoop rest item

/-- `Friend.encounter`: the lookup never mutates the friend. -/
def friendEncounter (c : Character) (item : Item) : Character × EncounterResult :=
  (c, friendEncounterLoop c.sells item)

/-- Virtual dispatch of `character.encounter(item)` over the runtime
class: `Zombie` overrides, `Dragon` inherits from `Enemy`,
`Student`/`Teacher` inherit from `Friend`. -/
def Character.encounter (c : Character) (item : Item) : Character × EncounterResult :=
  match c.cls with
  | .zombie => zombieEncounter c item
  | .enemy | .dragon => enemyEncounter c item
  | .friend | .student | .teacher => friendEncounter c item

/-! ## The world graph

Sections (`src/6`) and rooms (`src/5`) are held in an arena and refer to
each other by index; a Python `dict[Direction, Section]` becomes an
insertion-ordered association list with unique keys. -/

/-- `dict.get(key, None)` / `key in dict` followed by `dict[key]`. -/
def dictGet : List (Direction × Nat) → Direction → Option Nat
  | [], _ => none
  | p :: rest, k => if p.1 = k then some p.2 else dictGet rest k

/-- `dict[key] = value`: an existing key keeps its position and gets the
new value; a new key is appended. -/
def dictSet (l : List (Direction × Nat)) (k : Direction) (v : Nat) :
    List (Direction × Nat) :=
  if l.any (fun p => decide (p.1 = k)) then
    l.map (fun p => if p.1 = k then (k, v) else p)
  else
    l ++ [(k, v)]

/-- `Section.attach` of `src/6/game.py`, acting on the link dicts of the
two sections (`aId`/`bId` are their arena indices).  The source computes
the reverse direction as `Direction(direction.value + 2 % 4)` — by
Python operator precedence this is `Direction(d + 2)`, so the
constructor call raises `ValueError` (modelled as `none`) whenever
`d + 2 > 3`.  The forward link is installed before the raise. -/
def sectionAttach (aLinks bLinks : List (Direction × Nat)) (aId bId : Nat)
    (d : Direction) : Option (List (Direction × Nat) × List (Direction × Nat)) :=
  let aLinks' := dictSet aLinks d bId
  match Direction.ofValue? (d.value + 2 % 4) with
  | some rev => some (aLinks', dictSet bLinks rev aId)
  | none => none

/-- `Room.link_room` of `src/5/game.py`, the earlier variant: the
reverse direction is `Direction((value + 2) % 4)` — correctly
parenthesised there.  The direction-name string lookup
`Direction[direction.upper()]` is resolved, so the function takes the
`Direction` itself. -/
def linkRoom (aLinks bLinks : List (Direction × Nat)) (aId bId : Nat)
    (d : Direction) : Option (List (Direction × Nat) × List (Direction × Nat)) :=
  let aLinks' := dictSet aLinks d bId
  match Direction.ofValue? ((d.value + 2) % 4) with
  | some rev => some (aLinks', dictSet bLinks rev aId)
  | none => none

/-- Modelled from the spec: `opposite(d) = (d + 2) mod 4`, the reverse
direction the claims specify (total, since the formula always lands in
the enum). -/
def oppositeSpec (d : Direction) : Direction :=
  match Direction.ofValue? ((d.value + 2) % 4) with
  | some r => r
  | none => d

/-- A `Section` node of `src/6`: name plus link dict (items/characters
of the section live in `GameState` below where they are needed). -/
structure Sec where
  name : String
  attachedSections : List (Direction × Nat) := []
deriving DecidableEq

/-- `Section.get_section`: `self.attached_sections.get(direction, None)`. -/
def Sec.getSection (s : Sec) (d : Direction) : Option Nat :=
  dictGet s.attachedSections d

/-! ## Game state and encounter application (`src/6`) -/

/-- The game state touched by `Game.use` / `Game.apply_result`: the
player inventory, the current section's character roster, and the lines
printed so far. -/
structure GameState where
  inventory : List Item
  characters : List Character
  outputs : List String
deriving DecidableEq

/-- `Game.apply_result`: rebuild the inventory by dropping items that
compare equal to a member of `summary.character_removals` (note: not
`inventory_removals`) and appending `inventory_additions`; rebuild the
roster by dropping characters in `character_removals` and appending
`character_additions`; print the result's description. -/
def applyResult (g : GameState) (result : EncounterResult) : GameState :=
  let summary := result.summary
  { inventory :=
      (g.inventory.filter
        (fun item => !(summary.characterRemovals.any
          (fun r => characterItemEq r item)))) ++ summary.inventoryAdditions
    characters :=
      (g.characters.filter
        (fun ch => !(summary.characterRemovals.any
          (fun r => characterEq r ch)))) ++ summary.characterAdditions
    outputs := g.outputs ++ [result.description] }

/-- The `for item in self.inventory` loop of `Game.use`: every item of
the inventory snapshot whose name matches triggers one
`character.encounter` and one `apply_result` (the source has no
`break`; `apply_result` rebinds `self.inventory` to a fresh list, so
the iteration keeps walking the original list). -/
def useLoop : List Item → Character → String → GameState → Character × GameState
  | [], c, _, g => (c, g)
  | item :: rest, c, itemName, g =>
      if item.name = itemName then
        let step := c.encounter item
        useLoop rest step.1 itemName (applyResult g step.2)
      else
        useLoop rest c itemName g

/-- `Game.use(character, item_name)`: a missing character prints
"No such character"; otherwise run the inventory loop.  The (possibly
mutated) character object is returned alongside the new state. -/
def gameUse (g : GameState) (character : Option Character) (itemName : String) :
    GameState × Option Character :=
  match character with
  | none => ({ g with outputs := g.outputs ++ ["No such character"] }, none)
  | some c =>
      let r := useLoop g.inventory c itemName g
      (r.2, some r.1)

/-! ## Movement -/

/-- The navigation state of `src/6`'s `Game`: the section arena, the
`current_section` pointer (an index), and the printed lines. -/
structure GameW where
  sections : List Sec
  currentSection : Nat
  outputs : List String
deriving DecidableEq

/-- `Game.move` of `src/6/game.py`: `get_section` returning `None`
prints "You can't go that way", otherwise the current-section pointer
is replaced. -/
def gameMove (g : GameW) (d : Direction) : GameW :=
  match g.sections[g.currentSection]? with
  | none => g
  | some sec =>
      match sec.getSection d with
      | none => { g with outputs := g.outputs ++ ["You can't go that way"] }
      | some idx => { g with currentSection := idx }

/-- `Room.move` of `src/5/game.py` on the link dict of the current room
(`selfId` its index): a present link returns the target room, an absent
one prints "You cannot go that way." and returns the room itself.  The
`Direction[direction_name.upper()]` lookup is resolved, so the function
takes the `Direction`. -/
def roomMove (links : List (Direction × Nat)) (selfId : Nat) (d : Direction) :
    Nat × List String :=
  match dictGet links d with
  | some t => (t, [])
  | none => (selfId, ["You cannot go that way."])

/-! ## The `use` command's argument parsing (`Section.actions`) -/

/-- Python `str.split(sep)` for a nonempty separator, over character
lists; the first argument is fuel, instantiated with the length of the
string (one unit is consumed per scanned character, and a separator hit
consumes at least one character, so the fuel never runs out). -/
def pySplitAux (sep : List Char) : Nat → List Char → List Char → List (List Char)
  | _, acc, [] => [acc.reverse]
  | 0, acc, s => [acc.reverse ++ s]
  | fuel + 1, acc, c :: rest =>
      if sep.isPrefixOf (c :: rest) then
        acc.reverse :: pySplitAux sep fuel [] (List.drop sep.length (c :: rest))
      else
        pySplitAux sep fuel (c :: acc) rest

/-- Python `s.split(sep)` for a nonempty `sep`. -/
def pySplit (sep s : List Char) : List (List Char) :=
  pySplitAux sep s.length [] s

/-- The separator `" on "` of the `use` command. -/
def sepOn : List Char := [' ', 'o', 'n', ' ']

/-- The operand extraction of the `use` command's action in
`Section.actions`: `command_args.split(" on ")[1]` (the character name)
and `command_args.split(" on ")[0]` (the item name).  Indexing `[1]`
raises `IndexError` (modelled as `none`) when the argument text holds no
`" on "`. -/
def useCommandOperands (commandArgs : List Char) : Option (List Char × List Char) :=
  let parts := pySplit sepOn commandArgs
  match parts[1]? with
  | none => none
  | some characterName => some (characterName, parts.headD [])

/-! ## Concrete fixtures (the entities of the shipped world and of the
spec's scenarios) -/

/-- The knife item of scenario 3. -/
def knife : Item :=
  { name := "Knife", description := "stabby stabby",
    worryDescription := "uhoh it's ebiller than me" }

/-- Enemy "Jack" with weakness "Knife" (scenario 3). -/
def jackEnemy : Character :=
  { cls := .enemy, name := "Jack", weaknesses := [knife],
    alive := true, sells := [] }

/-- The `Zombie(name="Jack")` of the shipped world (a zombie defaults to
`alive = False` and has no weaknesses). -/
def jackZombie : Character :=
  { cls := .zombie, name := "Jack", weaknesses := [],
    alive := false, sells := [] }

/-- The cactus item of the teacher's trade table. -/
def cactusItem : Item :=
  { name := "Cactus", description := "A cactus",
    worryDescription := "how I'm going to decorate my office" }

/-- The exam-results item of the teacher's trade table. -/
def examResultsItem : Item :=
  { name := "Exam results", description := "Exam results",
    worryDescription := "how well my students did" }

/-- The single default `Transaction` of a `Teacher`:
exam results in exchange for a cactus. -/
def teacherTrade : Transaction :=
  { item := examResultsItem, exchangedFor := cactusItem }

/-- The `Teacher(name="Mr. Smith")` of the shipped world, with the
dataclass defaults. -/
def mrSmith : Character :=
  { cls := .teacher
    name := "Mr. Smith"
    weaknesses :=
      [ { name := "Grades", description := "Grades",
          worryDescription := "how well my students did" },
        { name := "Homework", description := "Homework",
          worryDescription := "how much homework I have to grade" } ]
    alive := true
    sells := [teacherTrade] }

/-- A game state whose inventory holds two knives, standing before the
enemy "Jack". -/
def twoKnifeState : GameState :=
  { inventory := [knife, knife], characters := [jackEnemy], outputs := [] }

/-- A navigation state with a single, unlinked section. -/
def loneSectionGame : GameW :=
  { sections := [{ name := "The start" }], currentSection := 0, outputs := [] }

/-- The start section of the shipped world once linked north to the end
section (index 1). -/
def startSec : Sec :=
  { name := "The start", attachedSections := [(Direction.north, 1)] }

/-- A navigation state at the linked start section. -/
def linkedGame : GameW :=
  { sections := [startSec, { name := "The end" }]
    currentSection := 0
    outputs := [] }

/-! ## Helper lemmas -/

/-- A key just written into a dict is read back with its new value. -/
theorem dictGet_dictSet_self (l : List (Direction × Nat)) (k : Direction) (v : Nat) :
    dictGet (dictSet l k v) k = some v := by
  induction l with
  | nil => simp [dictGet, dictSet]
  | cons hd tl ih =>
      by_cases h : hd.1 = k
      · simp [dictSet, dictGet, h]
      · by_cases ht : tl.any (fun p => decide (p.1 = k)) = true
        · have ih' := ih
          simp [dictSet, ht] at ih'
          simpa [dictSet, dictGet, h, ht] using ih'
        · have ih' := ih
          simp [dictSet, ht] at ih'
          simpa [dictSet, dictGet, h, ht] using ih'

/-- `item in self.weaknesses` succeeds exactly when some weakness shares
the item's name. -/
theorem getAttackedWith_iff (c : Character) (i : Item) :
    getAttackedWith c i = true ↔ ∃ w ∈ c.weaknesses, w.name = i.name := by
  simp [getAttackedWith, itemEq, List.any_eq_true]

/-- The `Friend.encounter` loop returns the first matching transaction
of the trade table, `Empty` when none matches. -/
theorem friendEncounterLoop_eq_find (sells : List Transaction) (i : Item) :
    friendEncounterLoop sells i =
      match sells.find? (fun t => itemEq t.exchangedFor i) with
      | some t => EncounterResult.transaction t
      | none => EncounterResult.empty := by
  induction sells with
  | nil => rfl
  | cons t rest ih =>
      by_cases h : itemEq t.exchangedFor i = true
      · simp [friendEncounterLoop, List.find?, h]
      · simp [friendEncounterLoop, List.find?, h, ih]

/-- `apply_result` never filters the inventory: an `Item` never compares
equal to a member of `character_removals`, so the new inventory is the
old one with `inventory_additions` appended. -/
theorem applyResult_inventory (g : GameState) (r : EncounterResult) :
    (applyResult g r).inventory = g.inventory ++ r.summary.inventoryAdditions := by
  simp [applyResult, characterItemEq]

/-- `apply_result` prints exactly one line: the result's description. -/
theorem applyResult_outputs (g : GameState) (r : EncounterResult) :
    (applyResult g r).outputs = g.outputs ++ [r.description] := rfl

/-- The `Game.use` loop is the identity when no inventory item bears the
requested name. -/
theorem useLoop_no_match (items : List Item) (c : Character) (itemName : String)
    (g : GameState) (h : ∀ it ∈ items, it.name ≠ itemName) :
    useLoop items c itemName g = (c, g) := by
  induction items with
  | nil => rfl
  | cons it rest ih =>
      have h1 : it.name ≠ itemName := h it (by simp)
      simp only [useLoop, if_neg h1]
      exact ih (fun x hx => h x (by simp [hx]))

/-- Each name-matching item of the inventory snapshot contributes
exactly one printed line to the `Game.use` loop. -/
theorem useLoop_outputs_length (itemName : String) :
    ∀ (items : List Item) (c : Character) (g : GameState),
      ((useLoop items c itemName g).2.outputs).length
        = g.outputs.length
          + (items.filter (fun it => decide (it.name = itemName))).length := by
  intro items
  induction items with
  | nil => intro c g; simp [useLoop]
  | cons it rest ih =>
      intro c g
      by_cases h : it.name = itemName
      · have step := ih (c.encounter it).1 (applyResult g (c.encounter it).2)
        simp only [useLoop, if_pos h]
        rw [step, applyResult_outputs]
        simp [h]
        omega
      · have step := ih c g
        simp only [useLoop, if_neg h]
        rw [step]
        simp [h]

/-! ## Claim theorems -/

/-- C1: the claim states that after `A.attach(d, B)` both the forward
link and the reverse link (via `opposite(d) = (d + 2) mod 4`) are set,
and that the same holds for `Room.link_room`.  The earlier variant's
`Room.link_room` does behave this way, but `Section.attach` computes the
reverse direction as `Direction(direction.value + 2 % 4)` — by operator
precedence `Direction(d + 2)` with no modulus — so for SOUTH and WEST
the `Direction` constructor raises `ValueError` (`none`) instead of
installing the reverse link. -/
theorem attach_establishes_reverse_link (aL bL : List (Direction × Nat)) (aId bId : Nat) :
    sectionAttach aL bL aId bId Direction.south = none
    ∧ sectionAttach aL bL aId bId Direction.west = none
    ∧ ∀ d, ∃ pr, linkRoom aL bL aId bId d = some pr
        ∧ dictGet pr.1 d = some bId ∧ dictGet pr.2 (oppositeSpec d) = some aId := by
  refine ⟨rfl, rfl, ?_⟩
  intro d
  cases d <;>
    exact ⟨_, rfl, dictGet_dictSet_self _ _ _, dictGet_dictSet_self _ _ _⟩

/-- C2: the claim states that no core operation raises an exception.
The code refutes it twice: the `use` command's action evaluates
`command_args.split(" on ")[1]`, which raises `IndexError` when the
argument text holds no `" on "` (here: argument "Knife"), and
`Section.attach` raises `ValueError` for the directions SOUTH and WEST. -/
theorem core_operations_raise :
    useCommandOperands ("Knife".toList) = none
    ∧ sectionAttach [] [] 0 1 Direction.south = none
    ∧ sectionAttach [] [] 0 1 Direction.west = none :=
  ⟨by decide, rfl, rfl⟩

/-- C3: applying a `Transaction(item = a, exchanged_for = b)` leaves the
inventory equal to the old inventory (nothing filtered, since the filter
consults `character_removals`, which a Transaction leaves empty) with
`a` appended; the `inventory_removals` field — which does hold `[b]` —
is never consulted, so `b` is not removed. -/
theorem transaction_apply_result_inventory (inv : List Item) (cs : List Character)
    (os : List String) (a b : Item) :
    (EncounterResult.transaction { item := a, exchangedFor := b }).summary.characterRemovals = []
    ∧ (EncounterResult.transaction { item := a, exchangedFor := b }).summary.inventoryRemovals = [b]
    ∧ (applyResult { inventory := inv, characters := cs, outputs := os }
        (EncounterResult.transaction { item := a, exchangedFor := b })).inventory
      = inv ++ [a] := by
  refine ⟨rfl, rfl, ?_⟩
  simpa [EncounterResult.summary] using
    applyResult_inventory { inventory := inv, characters := cs, outputs := os }
      (EncounterResult.transaction { item := a, exchangedFor := b })

/-- C4: for a living enemy, `encounter(item)` kills (sets `alive` to
false and returns `Annotated("You killed {name}")`) exactly when some
weakness shares the item's name; otherwise the result is `Empty` and the
enemy stays alive. -/
theorem enemy_encounter_kill_iff (c : Character) (i : Item) (h : c.alive = true) :
    (((enemyEncounter c i).1.alive = false
        ∧ (enemyEncounter c i).2 = EncounterResult.annotated ("You killed " ++ c.name))
      ↔ ∃ w ∈ c.weaknesses, w.name = i.name)
    ∧ ((¬ ∃ w ∈ c.weaknesses, w.name = i.name) →
        enemyEncounter c i = (c, EncounterResult.empty)) := by
  by_cases hw : getAttackedWith c i = true
  · have hex := (getAttackedWith_iff c i).mp hw
    exact ⟨by simp [enemyEncounter, hw, hex], fun hne => absurd hex hne⟩
  · have hne : ¬ ∃ w ∈ c.weaknesses, w.name = i.name :=
      fun hex => hw ((getAttackedWith_iff c i).mpr hex)
    have hb : getAttackedWith c i = false := eq_false_of_ne_true hw
    exact ⟨by simp [enemyEncounter, hb, h, hne], fun _ => by simp [enemyEncounter, hb]⟩

/-- C4 witness: enemy "Jack" with weakness "Knife" is killed by the
knife. -/
theorem enemy_encounter_kill_iff_witness :
    jackEnemy.alive = true
    ∧ ((enemyEncounter jackEnemy knife).1.alive = false
        ∧ (enemyEncounter jackEnemy knife).2
          = EncounterResult.annotated ("You killed " ++ jackEnemy.name)) :=
  ⟨rfl, (enemy_encounter_kill_iff jackEnemy knife rfl).1.mpr (by decide)⟩

/-- C5 counterexample: the claim states that a second `encounter` with
the same weakness after a kill does not produce another kill annotation;
in the code `Enemy.encounter` never checks `alive`, so the second call
returns `Annotated("You killed Jack")` again. -/
theorem enemy_reencounter_counterexample :
    (enemyEncounter ((enemyEncounter jackEnemy knife).1) knife).2
      = EncounterResult.annotated "You killed Jack" := by decide

/-- C5 (amended): a second `encounter` with the same weakness is
idempotent in state (`alive` stays false and the character value is
unchanged), but it does return the kill annotation a second time. -/
theorem enemy_reencounter_state_idempotent (c : Character) (i : Item)
    (h : ∃ w ∈ c.weaknesses, w.name = i.name) :
    ((enemyEncounter c i).1).alive = false
    ∧ (enemyEncounter ((enemyEncounter c i).1) i).1 = (enemyEncounter c i).1
    ∧ (enemyEncounter ((enemyEncounter c i).1) i).2
        = EncounterResult.annotated ("You killed " ++ c.name) := by
  have hw : getAttackedWith c i = true := (getAttackedWith_iff c i).mpr h
  have hw2 : getAttackedWith { c with alive := false } i = true := by
    simpa [getAttackedWith] using hw
  simp [enemyEncounter, hw, hw2]

/-- C5 witness: the amended behavior at enemy "Jack" and the knife. -/
theorem enemy_reencounter_state_idempotent_witness :
    ((enemyEncounter jackEnemy knife).1).alive = false
    ∧ (enemyEncounter ((enemyEncounter jackEnemy knife).1) knife).1
        = (enemyEncounter jackEnemy knife).1
    ∧ (enemyEncounter ((enemyEncounter jackEnemy knife).1) knife).2
        = EncounterResult.annotated ("You killed " ++ jackEnemy.name) :=
  enemy_reencounter_state_idempotent jackEnemy knife (by decide)

/-- C6: `Friend.encounter(item)` leaves the friend (and its `sells`
list) unchanged, returns the first transaction of `sells` whose
`exchanged_for` shares the item's name when one exists, and the `Empty`
result when none does. -/
theorem friend_encounter_first_match (c : Character) (i : Item) :
    (friendEncounter c i).1 = c
    ∧ (∀ t, c.sells.find? (fun t => itemEq t.exchangedFor i) = some t →
        (friendEncounter c i).2 = EncounterResult.transaction t)
    ∧ ((∀ t ∈ c.sells, t.exchangedFor.name ≠ i.name) →
        (friendEncounter c i).2 = EncounterResult.empty) := by
  refine ⟨rfl, ?_, ?_⟩
  · intro t ht
    simp [friendEncounter, friendEncounterLoop_eq_find, ht]
  · intro hne
    have hn : c.sells.find? (fun t => itemEq t.exchangedFor i) = none := by
      rw [List.find?_eq_none]
      intro t ht
      simp [itemEq]
      exact hne t ht
    simp [friendEncounter, friendEncounterLoop_eq_find, hn]

/-- C6 witness: the teacher "Mr. Smith" trades exam results for the
cactus — the single matching transaction of his trade table. -/
theorem friend_encounter_first_match_witness :
    (friendEncounter mrSmith cactusItem).1 = mrSmith
    ∧ (friendEncounter mrSmith cactusItem).2 = EncounterResult.transaction teacherTrade :=
  ⟨(friend_encounter_first_match mrSmith cactusItem).1,
    (friend_encounter_first_match mrSmith cactusItem).2.1 teacherTrade (by decide)⟩

/-- C7 counterexample: the claim states that `Game.use` calls
`character.encounter` exactly once (with the first matching item) and
applies the one result.  With two items named "Knife" in the inventory
the loop has no break, so two encounters are applied and two kill lines
are printed — a single applied result would print exactly one line. -/
theorem game_use_duplicate_items_counterexample :
    ((gameUse twoKnifeState (some jackEnemy) "Knife").1).outputs
      = ["You killed Jack", "You killed Jack"]
    ∧ (((gameUse twoKnifeState (some jackEnemy) "Knife").1).outputs).length ≠ 1 := by
  decide

/-- C7 (amended): a missing character prints "No such character" and
changes nothing else; when the character exists, `encounter` is applied
once per inventory item whose name equals the requested name (printing
one result line each), and with no matching item `use` is a silent
no-op that changes no state. -/
theorem game_use_behavior (g : GameState) (itemName : String) :
    gameUse g none itemName
        = ({ g with outputs := g.outputs ++ ["No such character"] }, none)
    ∧ (∀ c, (∀ it ∈ g.inventory, it.name ≠ itemName) →
        gameUse g (some c) itemName = (g, some c))
    ∧ (∀ c, (((gameUse g (some c) itemName).1).outputs).length
        = g.outputs.length
          + (g.inventory.filter (fun it => decide (it.name = itemName))).length) := by
  refine ⟨rfl, ?_, ?_⟩
  · intro c h
    simp [gameUse, useLoop_no_match g.inventory c itemName g h]
  · intro c
    simpa [gameUse] using useLoop_outputs_length itemName g.inventory c g

/-- C7 witness: using an item name nobody holds is a silent no-op. -/
theorem game_use_behavior_witness :
    gameUse twoKnifeState (some jackEnemy) "Nothing" = (twoKnifeState, some jackEnemy) :=
  (game_use_behavior twoKnifeState "Nothing").2.1 jackEnemy (by decide)

/-- C8 counterexample: the claim states the failure message is exactly
"You cannot go that way."; `Game.move` of `src/6/game.py` prints
"You can't go that way" instead (the claimed text is the message of the
earlier variant's `Room.move`). -/
theorem game_move_message_counterexample :
    (gameMove loneSectionGame Direction.north).outputs = ["You can't go that way"]
    ∧ (gameMove loneSectionGame Direction.north).outputs ≠ ["You cannot go that way."] := by
  decide

/-- C8 (amended): with no link in the requested direction `Game.move`
prints exactly "You can't go that way" and changes nothing; with a link
it replaces the current section.  The earlier variant's `Room.move`
prints "You cannot go that way." and stays, or returns the linked
room. -/
theorem game_move_behavior (g : GameW) (d : Direction) (sec : Sec)
    (h : g.sections[g.currentSection]? = some sec) :
    (sec.getSection d = none →
      gameMove g d = { g with outputs := g.outputs ++ ["You can't go that way"] })
    ∧ (∀ j, sec.getSection d = some j →
        gameMove g d = { g with currentSection := j })
    ∧ (∀ links selfId,
        (dictGet links d = none →
          roomMove links selfId d = (selfId, ["You cannot go that way."]))
        ∧ ∀ t, dictGet links d = some t → roomMove links selfId d = (t, [])) := by
  refine ⟨?_, ?_, ?_⟩
  · intro hn; simp [gameMove, h, hn]
  · intro j hj; simp [gameMove, h, hj]
  · intro links selfId
    exact ⟨fun hn => by simp [roomMove, hn], fun t ht => by simp [roomMove, ht]⟩

/-- C8 witness: moving north through the start section's link lands at
section 1. -/
theorem game_move_behavior_witness :
    gameMove linkedGame Direction.north = { linkedGame with currentSection := 1 } :=
  (game_move_behavior linkedGame Direction.north startSec rfl).2.1 1 rfl

/-- C9: `Zombie.encounter` with a `GoldenApple` returns
`CharacterSwap(self, Student(self.name))` — a fresh student carrying the
zombie's name — without mutating the zombie; with any other item it
behaves exactly as `Enemy.encounter`. -/
theorem zombie_encounter_swap (c : Character) (i : Item) :
    (i.isGoldenApple = true →
      zombieEncounter c i = (c, EncounterResult.characterSwap c (mkStudent c.name))
      ∧ (mkStudent c.name).cls = CharacterClass.student
      ∧ (mkStudent c.name).name = c.name)
    ∧ (i.isGoldenApple = false → zombieEncounter c i = enemyEncounter c i) := by
  constructor
  · intro hg
    exact ⟨by simp [zombieEncounter, hg], rfl, rfl⟩
  · intro hg
    simp [zombieEncounter, hg]

/-- C9 witness: the zombie "Jack" and the golden apple. -/
theorem zombie_encounter_swap_witness :
    goldenApple.isGoldenApple = true
    ∧ zombieEncounter jackZombie goldenApple
        = (jackZombie, EncounterResult.characterSwap jackZombie (mkStudent jackZombie.name)) :=
  ⟨rfl, ((zombie_encounter_swap jackZombie goldenApple).1 rfl).1⟩

/-- C10: for every result the code can produce, the
`character_removals` filter never removes an inventory item (an `Item`
never compares equal to a `Character`), so the inventory after
`apply_result` is the inventory before with `inventory_additions`
appended; a `CharacterSwap` in particular leaves it exactly unchanged. -/
theorem apply_result_inventory_frame (g : GameState) (r : EncounterResult) :
    (applyResult g r).inventory = g.inventory ++ r.summary.inventoryAdditions
    ∧ (∀ a b, r = EncounterResult.characterSwap a b →
        (applyResult g r).inventory = g.inventory) := by
  refine ⟨applyResult_inventory g r, ?_⟩
  intro a b hr
  subst hr
  simpa [EncounterResult.summary] using
    applyResult_inventory g (EncounterResult.characterSwap a b)

/-- C10 witness: the swap of zombie "Jack" for the fresh student leaves
the two-knife inventory exactly unchanged. -/
theorem apply_result_inventory_frame_witness :
    (applyResult twoKnifeState
        (EncounterResult.characterSwap jackZombie (mkStudent "Jack"))).inventory
      = twoKnifeState.inventory :=
  (apply_result_inventory_frame twoKnifeState
      (EncounterResult.characterSwap jackZombie (mkStudent "Jack"))).2
    jackZombie (mkStudent "Jack") rfl
